import Mathlib

set_option maxRecDepth 40000

/-!
Verification of the vcluster sources against their natural-language
specification.  The Go code is shallowly embedded: pure fragments become
Lean functions, the CLI control flow becomes explicit case analysis, and
the pieces of the program that live outside the provided sources (the name
translator, the bidirectional label sync and the chart templates) are
modelled from the specification, as indicated on each definition.
-/

namespace VCluster

/-! ## Generic association-list helpers (Go `map[string]string` model) -/

/-- Lookup in an association list; models indexing a Go map (first match wins,
Go maps hold each key once). -/
def lk {κ α : Type} [DecidableEq κ] : List (κ × α) → κ → Option α
  | [], _ => none
  | (k, v) :: rest, key => if k = key then some v else lk rest key

/-- Models Go `delete(m, key)`: drops every binding of `key`. -/
def deleteKey {α : Type} (m : List (String × α)) (key : String) : List (String × α) :=
  m.filter (fun kv => kv.1 ≠ key)

/-- Insert-or-replace a binding; models `m[key] = v` on a Go map. -/
def putKey {κ α : Type} [DecidableEq κ] (m : List (κ × α)) (key : κ) (v : α) : List (κ × α) :=
  (key, v) :: m.filter (fun kv => kv.1 ≠ key)

/-! ## The virtual-cluster configuration (the fields the claims read)

`Config` mirrors the subset of `config.Config` that the embedded code
consults: the k0s distro template values, the backing-store/HA fields of
`validateHABackingStoreCompatibility`, the headless flag of
`experimental.isolatedControlPlane`, and the `sync.toHost` toggles. -/

structure Config where
  /-- `.Values.serviceCIDR`; the empty string is Go falsy ("unset"). -/
  serviceCIDR : String
  /-- `.Values.networking.advanced.clusterDomain`. -/
  clusterDomain : String
  /-- `.Values.controlPlane.virtualScheduler.enabled`. -/
  virtualSchedulerEnabled : Bool
  /-- `.Values.controlPlane.backingStore.embeddedEtcd.enabled`. -/
  embeddedEtcdEnabled : Bool
  /-- `ControlPlane.Distro.K0S.Config`: the user override for the k0s template. -/
  k0sConfigOverride : String
  /-- Whether `config.EmbeddedDatabase()` holds (default sqlite backing store).
  The predicate itself lives outside the provided sources, so it is carried
  as a field of the configuration. -/
  embeddedDatabase : Bool
  /-- `ControlPlane.StatefulSet.HighAvailability.Replicas`. -/
  haReplicas : Nat
  /-- `Experimental.IsolatedControlPlane.Headless`. -/
  headless : Bool
  /-- `Sync.ToHost.PersistentVolumes.Enabled`. -/
  syncToHostPersistentVolumesEnabled : Bool
deriving DecidableEq

/-! ## CLI: `vcluster use manager` (cmd/vclusterctl/cmd/use/manager.go) -/

inductive ManagerType
  | helm
  | platform
deriving DecidableEq

/-- The CLI config file contents that `SwitchManager` reads and writes. -/
structure VClusterCliConfig where
  managerType : ManagerType
deriving DecidableEq

/-- The file at `configPath`, the only state `SwitchManager` mutates. -/
structure CliFileSystem where
  storedConfig : VClusterCliConfig
deriving DecidableEq

/-- Shallow embedding of `SwitchManager` (cmd/vclusterctl/cmd/use/manager.go,
lines 55-73).  `platformClientOk` stands for whether
`platform.CreateClientFromConfig` succeeds on the stored platform config,
`writeOk` for whether `config.Write` succeeds.  Returns the file system
after the call together with the returned error, if any. -/
def SwitchManager (platformClientOk writeOk : Bool) (mngr : ManagerType)
    (fs : CliFileSystem) : CliFileSystem × Option String :=
  let cfg := fs.storedConfig
  if mngr = ManagerType.platform && !platformClientOk then
    (fs, some "cannot switch to platform manager, because seems like you are not logged into a vCluster platform")
  else
    let cfg2 := { cfg with managerType := mngr }
    if writeOk then
      ({ storedConfig := cfg2 }, none)
    else
      (fs, some "save vCluster config")

/-! ## CLI: `CreateHelm` (pkg/cli/create_helm.go) -/

/-- One entry of `find.ListVClusters`: an already existing virtual cluster. -/
structure FoundVCluster where
  name : String
  nspace : String
deriving DecidableEq

/-- The loop of create_helm.go lines 153-159: reject a second virtual cluster
inside the namespace that is being deployed to. -/
def checkOnlyVClusterInNamespace (vClusters : List FoundVCluster)
    (cmdNamespace vClusterName : String) : Option String :=
  match vClusters with
  | [] => none
  | v :: rest =>
    if v.nspace = cmdNamespace ∧ v.name ≠ vClusterName then
      some ("there is already a virtual cluster in namespace " ++ cmdNamespace ++
        "; creating multiple virtual clusters inside the same namespace is not supported")
    else
      checkOnlyVClusterInNamespace rest cmdNamespace vClusterName

/-- `validateHABackingStoreCompatibility` (create_helm.go lines 533-541). -/
def validateHABackingStoreCompatibility (config : Config) : Option String :=
  if !config.embeddedDatabase then
    none
  else if !(config.haReplicas > 1) then
    none
  else
    some "cannot use default embedded database (sqlite) in high availability mode. Try embedded etcd backing store instead"

/-- The CLI flags of CreateHelm that steer its control flow here. -/
structure CreateOptions where
  connect : Bool
  print : Bool
  upgrade : Bool
deriving DecidableEq

/-- Outcome of a `CreateHelm` run in this embedding. -/
inductive CreateHelmAction
  /-- an error was returned before `cmd.deployChart` ran -/
  | fail (msg : String)
  /-- the already-deployed early return at create_helm.go line 189: without
  `--upgrade`, an existing deployed release with `cmd.Connect` set hands off
  to `ConnectHelm` (no deployment happens) -/
  | connectExisting
  /-- `deployChart` was reached; `connectAfter` records whether the
  `ConnectHelm` call at create_helm.go line 385 is made afterwards -/
  | deploy (connectAfter : Bool)
deriving DecidableEq

/-- Shallow embedding of the control flow of `CreateHelm`
(pkg/cli/create_helm.go) that the claims exercise, with the omitted IO
steps (helm binary checks, prepare, restore, chart download) assumed to
succeed.  `alreadyDeployed` stands for `isVClusterDeployed(release)` on the
release fetched at line 166:

* lines 153-159: at most one virtual cluster per namespace, checked before
  `cmd.prepare` (line 161) and any deployment;
* lines 179-200: without `--upgrade`, an already deployed vCluster returns
  early — `ConnectHelm` when `cmd.Connect` is set (line 189, before the
  headless flag is read), the "already exists" error otherwise (line 198);
* lines 342-344: `experimental.isolatedControlPlane.headless` forces
  `cmd.Connect = false`;
* lines 354-357: `validateHABackingStoreCompatibility` aborts the run;
* line 377: `deployChart`;
* line 383: `if cmd.Connect || cmd.Print` decides the final `ConnectHelm`. -/
def CreateHelm (vClusters : List FoundVCluster) (cmdNamespace vClusterName : String)
    (options : CreateOptions) (alreadyDeployed : Bool)
    (vClusterConfig : Config) : CreateHelmAction :=
  match checkOnlyVClusterInNamespace vClusters cmdNamespace vClusterName with
  | some msg => CreateHelmAction.fail msg
  | none =>
    if !options.upgrade && alreadyDeployed then
      if options.connect then
        CreateHelmAction.connectExisting
      else
        CreateHelmAction.fail ("vcluster " ++ vClusterName ++ " already exists in namespace "
          ++ cmdNamespace)
    else
      let connect := if vClusterConfig.headless then false else options.connect
      match validateHABackingStoreCompatibility vClusterConfig with
      | some msg => CreateHelmAction.fail msg
      | none => CreateHelmAction.deploy (connect || options.print)

/-! ## Chart: the control-plane Service (chart/tests/service_test.yaml)

The chart template `service.yaml` itself is not among the provided sources;
only its unit tests are. -/

structure ControlPlaneServicePort where
  name : String
  port : Nat
  targetPort : Option Nat
  protocol : String
deriving DecidableEq

structure ControlPlaneService where
  typ : String
  selector : Option (List (String × String))
  ports : List ControlPlaneServicePort
deriving DecidableEq

/-- Modelled from the spec: `chart/templates/service.yaml` is not part of the
provided sources; this renders the control-plane Service the way the chart
unit tests (chart/tests/service_test.yaml) pin it down.  In the default
configuration the Service selects the vcluster pod and forwards both ports
to 8443; with `experimental.isolatedControlPlane.headless` the Service is
rendered with no selector and no target ports. -/
def renderControlPlaneService (vClusterConfig : Config) : ControlPlaneService :=
  if vClusterConfig.headless then
    { typ := "ClusterIP"
      selector := none
      ports := [⟨"https", 443, none, "TCP"⟩, ⟨"kubelet", 10250, none, "TCP"⟩] }
  else
    { typ := "ClusterIP"
      selector := some [("app", "vcluster")]
      ports := [⟨"https", 443, some 8443, "TCP"⟩, ⟨"kubelet", 10250, some 8443, "TCP"⟩] }

end VCluster

namespace VCluster

/-! ## Theorems for the CLI claims -/

/-! ## Name translator (pkg/util/translate, modelled from the spec)

The translator package is not among the provided sources (only its callers
are), so these definitions follow the contract in section 4.1 of the spec:
`HostName` renders `<vName>-x-<vNamespace>-x-<vClusterName>`, kept verbatim
when it fits the 63-character DNS label limit, otherwise truncated with the
overflow suffix replaced by a deterministic digest. -/

/-- Lowercase hexadecimal digit for `n % 16`. -/
def hexDigitChar (n : Nat) : Char :=
  "0123456789abcdef".data.getD (n % 16) '0'

/-- `k` little-endian hex digits of `h`. -/
def hexDigitsAux : Nat → Nat → List Char
  | 0, _ => []
  | k + 1, h => hexDigitChar (h % 16) :: hexDigitsAux k (h / 16)

/-- Modelled from the spec: a deterministic digest standing in for the
SHA-256 prefix the translator appends when truncating; always exactly ten
hex characters. -/
def digest10 (s : String) : String :=
  String.mk (hexDigitsAux 10 (s.data.foldl (fun a c => (a * 31 + c.toNat) % (16 ^ 10)) 7))

/-- Go `strings.Join(parts, "-")`. -/
def joinDash : List String → String
  | [] => ""
  | [s] => s
  | s :: rest => s ++ "-" ++ joinDash rest

/-- Modelled from the spec: join the name components with "-", keep the
result when it fits into 63 characters, otherwise replace the overflow
suffix with the deterministic digest. -/
def safeConcatName (parts : List String) : String :=
  let full := joinDash parts
  if full.length ≤ 63 then full
  else String.mk (full.data.take 52) ++ "-" ++ digest10 full

structure NamespacedName where
  nspace : String
  name : String
deriving DecidableEq

/-- Modelled from the spec: `translate.Default.HostName(vKind, vName,
vNamespace)` — the deterministic host identity
`<vName>-x-<vNamespace>-x-<vClusterName>` in the shared target
namespace. -/
def HostName (vClusterName targetNamespace vName vNamespace : String) : NamespacedName :=
  ⟨targetNamespace, safeConcatName [vName, "x", vNamespace, "x", vClusterName]⟩

/-- Modelled from the spec: `translate.Default.HostNameCluster(name)` — the
cluster-scoped translation, with no namespace component. -/
def HostNameCluster (vClusterName name : String) : String :=
  safeConcatName [name, "x", vClusterName]

/-! ## PersistentVolumes mapper (CreatePersistentVolumesMapper, part_002) -/

/-- `constants.HostClusterPersistentVolumeAnnotation`; the constants package
is not under the provided sources, only the key's role matters here. -/
def hostClusterPVAnnKey : String := "vcluster.loft.sh/host-pv"

/-- The metadata of a virtual PersistentVolume that the mapper consults;
`annotations = none` models a nil Go map. -/
structure PersistentVolume where
  annotations : Option (List (String × String))
deriving DecidableEq

/-- Lookup of an annotation on a PersistentVolume; Go indexing of a nil map
or a missing key yields the empty string, represented here as `none`. -/
def pvAnnLookup (vPv : PersistentVolume) (key : String) : Option String :=
  match vPv.annotations with
  | none => none
  | some anns => lk anns key

/-- Shallow embedding of `CreatePersistentVolumesMapper` (part_002 lines
12-29): the virtual-to-host name translation the returned mapper applies.
With `Sync.ToHost.PersistentVolumes.Enabled` false the mapper is
`generic.NewMirrorMapper` (host identity = virtual identity); otherwise the
mapper returns the host-cluster PV annotation when present and non-empty
and the cluster-scoped translation of the virtual name otherwise (a nil
object keeps the given name). -/
def createPersistentVolumesMapperHostName (vClusterName : String) (cfg : Config)
    (name : String) (vObj : Option PersistentVolume) : String :=
  if !cfg.syncToHostPersistentVolumesEnabled then
    name
  else
    match vObj with
    | none => name
    | some vPv =>
      match pvAnnLookup vPv hostClusterPVAnnKey with
      | none => HostNameCluster vClusterName name
      | some v => if v = "" then HostNameCluster vClusterName name else v

/-! ## Marker wire format and `stripObject` (part_001, package testing) -/

/-- The stable label key marking host objects owned by a virtual cluster. -/
def managedByLabelKey : String := "vcluster.loft.sh/managed-by"

/-- The stable key of the last-applied spec digest on host objects. -/
def applyAnnKey : String := "vcluster.loft.sh/apply"

/-- The object metadata `stripObject` rewrites; an `Option` map models a nil
Go map. -/
structure KubeObject where
  resourceVersion : String
  ownerReferences : List String
  generation : Nat
  uid : String
  selfLink : String
  managedFields : Option (List String)
  annotations : Option (List (String × String))
  labels : Option (List (String × String))
  apiVersion : String
  kind : String
deriving DecidableEq

/-- Shallow embedding of `stripObject` (part_001 lines 194-236): reset the
server-populated metadata, delete exactly the `vcluster.loft.sh/apply`
annotation and the `vcluster.loft.sh/managed-by` label (collapsing each map
to nil when it ends up empty), and clear the type information. -/
def stripObject (obj : KubeObject) : KubeObject :=
  let anns :=
    match obj.annotations with
    | none => none
    | some a =>
      let a2 := deleteKey a applyAnnKey
      if a2.isEmpty then none else some a2
  let lbls :=
    match obj.labels with
    | none => none
    | some l =>
      let l2 := deleteKey l managedByLabelKey
      if l2.isEmpty then none else some l2
  { resourceVersion := ""
    ownerReferences := []
    generation := 0
    uid := ""
    selfLink := ""
    managedFields := none
    annotations := anns
    labels := lbls
    apiVersion := ""
    kind := "" }

/-- Annotation visible on an object (nil map has no entries). -/
def objAnnLookup (obj : KubeObject) (key : String) : Option String :=
  match obj.annotations with
  | none => none
  | some a => lk a key

/-- Label visible on an object (nil map has no entries). -/
def objLabelLookup (obj : KubeObject) (key : String) : Option String :=
  match obj.labels with
  | none => none
  | some l => lk l key

/-! ## Bidirectional label/annotation sync (modelled from the spec)

The per-kind syncer sources are not under the provided sources; the model
follows section 4.4 of the spec: the non-marker labels/annotations are
synced in both directions with a last-writer-wins three-way merge keyed by
the stored last-applied set, and deletions propagate. -/

/-- System marker keys (the `vcluster.loft.sh/` namespace) are never part of
the bidirectional sync. -/
def isSystemMarkerKey (k : String) : Bool :=
  List.isPrefixOf ("vcluster.loft.sh/" : String).data k.data

/-- The label maps of one (vObj, pObj) pair plus the persisted last-applied
set (the `labels-apply` bookkeeping annotation). -/
structure BidirLabelState where
  vLabels : List (String × String)
  pLabels : List (String × String)
  lastApplied : List (String × String)
deriving DecidableEq

def labelKeys (m : List (String × String)) : List String := m.map Prod.fst

/-- All keys taking part in the sync: every key seen on either side or in
the last-applied set, marker keys excluded. -/
def bidirKeys (st : BidirLabelState) : List String :=
  ((labelKeys st.lastApplied ++ labelKeys st.vLabels ++ labelKeys st.pLabels).dedup).filter
    (fun k => !isSystemMarkerKey k)

/-- Modelled from the spec: the per-key three-way merge — a value changed on
the virtual side since the last apply wins (including deletion); otherwise
the host value stands (so host-side edits and deletions propagate). -/
def mergeLabel (old v p : Option String) : Option String :=
  if v ≠ old then v else p

/-- Modelled from the spec: one reconcile of the bidirectional
label/annotation sync.  Both sides converge to the merged map (the host
additionally keeps its marker labels) and the merged map is persisted as
the new last-applied set. -/
def reconcileBidirLabels (st : BidirLabelState) : BidirLabelState :=
  let merged := (bidirKeys st).filterMap (fun k =>
    Option.map (fun val => (k, val))
      (mergeLabel (lk st.lastApplied k) (lk st.vLabels k) (lk st.pLabels k)))
  { vLabels := merged
    pLabels := merged ++ st.pLabels.filter (fun kv => isSystemMarkerKey kv.1)
    lastApplied := merged }

/-! ## Service sync (modelled from the spec; exercised by
test/e2e/syncer/services/services.go) -/

structure ServicePort where
  port : Int
  nodePort : Int
deriving DecidableEq

structure ServiceSpec where
  clusterIP : String
  healthCheckNodePort : Int
  ports : List ServicePort
deriving DecidableEq

/-- The values the host API server assigns when the projected Service is
created (cluster IP, health-check node port, one node port per port). -/
structure HostAssignment where
  clusterIP : String
  healthCheckNodePort : Int
  nodePorts : List Int
deriving DecidableEq

/-- Host admission applied to the projected spec on create. -/
def applyHostAssignment (a : HostAssignment) (s : ServiceSpec) : ServiceSpec :=
  { clusterIP := a.clusterIP
    healthCheckNodePort := a.healthCheckNodePort
    ports := List.zipWith (fun p np => { p with nodePort := np }) s.ports a.nodePorts }

/-- Virtual and host Services, keyed by (namespace, name). -/
structure ServiceClusterState where
  vServices : List ((String × String) × ServiceSpec)
  pServices : List ((String × String) × ServiceSpec)
deriving DecidableEq

/-- Modelled from the spec: one create-reconcile of the Service syncer for
the virtual key `(vNamespace, vName)` (state `Present/Absent` of section
4.4): project the virtual object to the host under the translated name,
let host admission assign the cluster IP and node ports, and write those
host-assigned fields back onto the virtual object within the same
reconcile (scenario S1). -/
def reconcileServiceCreate (vClusterName targetNamespace : String)
    (assign : HostAssignment) (st : ServiceClusterState)
    (key : String × String) : ServiceClusterState :=
  match lk st.vServices key with
  | none => st
  | some vSpec =>
    let hostId := HostName vClusterName targetNamespace key.2 key.1
    let hostKey := (hostId.nspace, hostId.name)
    match lk st.pServices hostKey with
    | some _ => st
    | none =>
      let pSpec := applyHostAssignment assign vSpec
      { vServices := putKey st.vServices key
          { vSpec with
            clusterIP := pSpec.clusterIP
            healthCheckNodePort := pSpec.healthCheckNodePort
            ports := List.zipWith (fun p np => { p with nodePort := np.nodePort })
              vSpec.ports pSpec.ports }
        pServices := putKey st.pServices hostKey pSpec }

/-! ## k0s distro: WriteK0sConfig (part_002, package k0s) -/

/-- The placeholder the built-in k0s template renders when
`.Values.serviceCIDR` is unset (`cidrPlaceholder` in part_002 line 48). -/
def cidrPlaceholder : String := "CIDR_PLACEHOLDER"

/-- Go `strings.ReplaceAll` on character lists: replace the non-overlapping
occurrences of `pat`, left to right. -/
def listReplaceAll (pat rep : List Char) : List Char → List Char
  | [] => []
  | c :: rest =>
    if h : pat ≠ [] ∧ pat.isPrefixOf (c :: rest) then
      rep ++ listReplaceAll pat rep ((c :: rest).drop pat.length)
    else
      c :: listReplaceAll pat rep rest
termination_by l => l.length
decreasing_by
  · have hlen : pat.length ≠ 0 := fun h0 => h.1 (List.eq_nil_of_length_eq_zero h0)
    simp only [List.length_drop, List.length_cons]
    omega
  · simp only [List.length_cons]
    omega

/-- Go `strings.ReplaceAll(s, old, new)`. -/
def stringsReplaceAll (s old new : String) : String :=
  String.mk (listReplaceAll old.data new.data s.data)

/-- The rendered text of the built-in template up to and including the
`network:` key (part_002 lines 50-62; the `{{-` of the first conditional
trims the whitespace that follows). -/
def k0sHead : String :=
  "apiVersion: k0s.k0sproject.io/v1beta1\n    kind: Cluster\n    metadata:\n      name: k0s\n    spec:\n      api:\n        port: 6443\n        k0sApiPort: 9443\n        extraArgs:\n          bind-address: 127.0.0.1\n          enable-admission-plugins: NodeRestriction\n          endpoint-reconciler-type: none\n      network:"

/-- The serviceCIDR line rendered when `.Values.serviceCIDR` is set. -/
def k0sServiceCIDRLine : String := "\n        serviceCIDR: "

/-- The comment and serviceCIDR line rendered when `.Values.serviceCIDR` is
unset; the placeholder follows. -/
def k0sUnsetComment : String :=
  "\n        # Will be replaced automatically by the syncer container on first startup\n        serviceCIDR: "

def k0sProviderLine : String := "\n        provider: custom"

def k0sClusterDomainLine : String := "\n        clusterDomain: "

def k0sControllerManagerHead : String := "\n      controllerManager:\n        extraArgs:"

/-- Controller list rendered when the virtual scheduler is disabled. -/
def k0sControllersDefault : String :=
  "\n          controllers: '*,-nodeipam,-nodelifecycle,-persistentvolume-binder,-attachdetach,-persistentvolume-expander,-cloud-node-lifecycle,-ttl'"

/-- Controller list and node-monitor settings rendered when the virtual
scheduler is enabled. -/
def k0sControllersVirtualScheduler : String :=
  "\n          controllers: '*,-nodeipam,-persistentvolume-binder,-attachdetach,-persistentvolume-expander,-cloud-node-lifecycle,-ttl'\n          node-monitor-grace-period: 1h\n          node-monitor-period: 1h"

/-- Storage section rendered when embedded etcd is enabled. -/
def k0sStorageEtcd : String :=
  "\n      storage:\n        etcd:\n          externalCluster:\n            endpoints: [\"127.0.0.1:2379\"]\n            caFile: /data/k0s/pki/etcd/ca.crt\n            etcdPrefix: \"/registry\"\n            clientCertFile: /data/k0s/pki/apiserver-etcd-client.crt\n            clientKeyFile: /data/k0s/pki/apiserver-etcd-client.key"

/-- The rendered tail of the built-in template after the serviceCIDR value:
provider, optional clusterDomain, controller-manager flags and optional
embedded-etcd storage (part_002 lines 69-91, following the Go template
conditionals with their whitespace trimming). -/
def k0sTail (values : Config) : String :=
  k0sProviderLine ++
  (if values.clusterDomain ≠ "" then k0sClusterDomainLine ++ values.clusterDomain else "") ++
  k0sControllerManagerHead ++
  (if !values.virtualSchedulerEnabled then k0sControllersDefault
   else k0sControllersVirtualScheduler) ++
  (if values.embeddedEtcdEnabled then k0sStorageEtcd else "")

/-- Rendering the built-in `k0sConfig` Go template (part_002 lines 50-91)
against `.Values = vConfig.Config`. -/
def renderK0sConfig (values : Config) : String :=
  k0sHead ++
  (if values.serviceCIDR ≠ "" then k0sServiceCIDRLine ++ values.serviceCIDR
   else k0sUnsetComment ++ cidrPlaceholder) ++
  k0sTail values

/-- Shallow embedding of `WriteK0sConfig` (part_002 lines 149-179): the file
contents written to /tmp/k0s-config.yaml — the chosen template rendered and
every placeholder occurrence replaced by the given serviceCIDR.  When the
`ControlPlane.Distro.K0S.Config` override is non-empty the Go code executes
that user-supplied template instead, which is outside this embedding
(`none`). -/
def WriteK0sConfig (serviceCIDR : String) (vConfig : Config) : Option String :=
  if vConfig.k0sConfigOverride = "" then
    some (stringsReplaceAll (renderK0sConfig vConfig) cidrPlaceholder serviceCIDR)
  else
    none

/-- A default-looking configuration used to instantiate witnesses. -/
def sampleConfig : Config :=
  { serviceCIDR := ""
    clusterDomain := ""
    virtualSchedulerEnabled := false
    embeddedEtcdEnabled := false
    k0sConfigOverride := ""
    embeddedDatabase := true
    haReplicas := 1
    headless := false
    syncToHostPersistentVolumesEnabled := true }

/-- `sampleConfig` with the isolated control plane set to headless. -/
def headlessConfig : Config := { sampleConfig with headless := true }

/-- `sampleConfig` on the default embedded database with 3 HA replicas. -/
def haEmbeddedConfig : Config := { sampleConfig with haReplicas := 3 }

/-- Claim C10: SwitchManager only persists the new manager type after
validation succeeds.  When switching to the platform manager and creating a
platform client from the stored platform config fails, SwitchManager returns
an error without writing the CLI config file, so the stored manager type is
unchanged on error. -/
theorem switchManager_platform_failure_preserves_config :
    ∀ (fs : CliFileSystem) (writeOk : Bool),
      (SwitchManager false writeOk ManagerType.platform fs).1 = fs ∧
      ((SwitchManager false writeOk ManagerType.platform fs).2).isSome = true := by
  intro fs writeOk
  constructor <;> rfl

/-- The namespace-conflict check fires exactly when another virtual cluster
already lives in the target namespace. -/
theorem checkOnlyVClusterInNamespace_spec (vClusters : List FoundVCluster)
    (cmdNamespace vClusterName : String) :
    checkOnlyVClusterInNamespace vClusters cmdNamespace vClusterName ≠ none ↔
      ∃ v ∈ vClusters, v.nspace = cmdNamespace ∧ v.name ≠ vClusterName := by
  induction vClusters with
  | nil => simp [checkOnlyVClusterInNamespace]
  | cons v rest ih =>
    by_cases h : v.nspace = cmdNamespace ∧ v.name ≠ vClusterName
    · simp [checkOnlyVClusterInNamespace, h]
    · rw [show checkOnlyVClusterInNamespace (v :: rest) cmdNamespace vClusterName =
          checkOnlyVClusterInNamespace rest cmdNamespace vClusterName from by
            simp [checkOnlyVClusterInNamespace, h]]
      rw [ih]
      constructor
      · rintro ⟨w, hw, hcond⟩
        exact ⟨w, List.mem_cons_of_mem v hw, hcond⟩
      · rintro ⟨w, hw, hcond⟩
        rcases List.mem_cons.mp hw with rfl | hw'
        · exact absurd hcond h
        · exact ⟨w, hw', hcond⟩

/-- Claim C8: for every namespace and target vCluster name, if the list of
existing vClusters contains an entry in the same namespace whose name differs
from the target name, CreateHelm returns that error before preparing or
deploying anything: at most one virtual cluster may exist per host
namespace. -/
theorem createHelm_single_vcluster_per_namespace
    (vClusters : List FoundVCluster) (cmdNamespace vClusterName : String)
    (options : CreateOptions) (alreadyDeployed : Bool) (vClusterConfig : Config)
    (h : ∃ v ∈ vClusters, v.nspace = cmdNamespace ∧ v.name ≠ vClusterName) :
    ∃ msg, CreateHelm vClusters cmdNamespace vClusterName options alreadyDeployed
        vClusterConfig = CreateHelmAction.fail msg ∧
      checkOnlyVClusterInNamespace vClusters cmdNamespace vClusterName = some msg := by
  have hne := (checkOnlyVClusterInNamespace_spec vClusters cmdNamespace vClusterName).mpr h
  rcases hmsg : checkOnlyVClusterInNamespace vClusters cmdNamespace vClusterName with _ | msg
  · exact absurd hmsg hne
  · exact ⟨msg, by simp [CreateHelm, hmsg], rfl⟩

/-- Witness for C8 at a concrete existing vCluster list. -/
theorem createHelm_single_vcluster_per_namespace_witness :
    (∃ v ∈ [FoundVCluster.mk "other" "ns1"], v.nspace = "ns1" ∧ v.name ≠ "vc1") ∧
    ∃ msg, CreateHelm [FoundVCluster.mk "other" "ns1"] "ns1" "vc1"
        { connect := true, print := false, upgrade := false } false sampleConfig =
        CreateHelmAction.fail msg ∧
      checkOnlyVClusterInNamespace [FoundVCluster.mk "other" "ns1"] "ns1" "vc1" = some msg :=
  ⟨⟨FoundVCluster.mk "other" "ns1", by decide⟩,
    createHelm_single_vcluster_per_namespace _ _ _ _ _ _
      ⟨FoundVCluster.mk "other" "ns1", by decide⟩⟩

/-- Claim C9: validateHABackingStoreCompatibility returns an error if and only
if the configuration uses the embedded database (sqlite) and
`ControlPlane.StatefulSet.HighAvailability.Replicas` is greater than 1;
CreateHelm aborts with that error before deploying, so an HA deployment
backed by the default embedded database is never installed. -/
theorem validateHABackingStore_blocks_embedded_ha
    (vClusters : List FoundVCluster) (cmdNamespace vClusterName : String)
    (options : CreateOptions) (alreadyDeployed : Bool) (vClusterConfig : Config) :
    (validateHABackingStoreCompatibility vClusterConfig ≠ none ↔
      vClusterConfig.embeddedDatabase = true ∧ vClusterConfig.haReplicas > 1) ∧
    (∀ msg, validateHABackingStoreCompatibility vClusterConfig = some msg →
      checkOnlyVClusterInNamespace vClusters cmdNamespace vClusterName = none →
      (options.upgrade = true ∨ alreadyDeployed = false) →
      CreateHelm vClusters cmdNamespace vClusterName options alreadyDeployed
        vClusterConfig = CreateHelmAction.fail msg) ∧
    (vClusterConfig.embeddedDatabase = true → vClusterConfig.haReplicas > 1 →
      ∀ b, CreateHelm vClusters cmdNamespace vClusterName options alreadyDeployed
        vClusterConfig ≠ CreateHelmAction.deploy b) := by
  refine ⟨?_, ?_, ?_⟩
  · unfold validateHABackingStoreCompatibility
    by_cases h1 : vClusterConfig.embeddedDatabase
    · by_cases h2 : vClusterConfig.haReplicas > 1
      · simp [h1, h2]
      · simp [h1, h2]
    · simp [Bool.not_eq_true] at h1
      simp [h1]
  · intro msg hval hcheck hpath
    have hcond : (!options.upgrade && alreadyDeployed) = false := by
      rcases hpath with h | h <;> simp [h]
    simp [CreateHelm, hcheck, hcond, hval]
  · intro h1 h2 b
    have hval : validateHABackingStoreCompatibility vClusterConfig ≠ none := by
      unfold validateHABackingStoreCompatibility
      simp [h1, h2]
    rcases hv : validateHABackingStoreCompatibility vClusterConfig with _ | msg
    · exact absurd hv hval
    · rcases hc : checkOnlyVClusterInNamespace vClusters cmdNamespace vClusterName with _ | m
      · by_cases hcond : (!options.upgrade && alreadyDeployed) = true
        · by_cases hconn : options.connect = true
          · simp [CreateHelm, hc, hcond, hconn]
          · simp [CreateHelm, hc, hcond, hconn]
        · simp [CreateHelm, hc, hcond, hv]
      · simp [CreateHelm, hc]

/-- Witness for C9 at a concrete HA + embedded-database configuration. -/
theorem validateHABackingStore_blocks_embedded_ha_witness :
    (validateHABackingStoreCompatibility haEmbeddedConfig ≠ none ↔
      haEmbeddedConfig.embeddedDatabase = true ∧ haEmbeddedConfig.haReplicas > 1) ∧
    (∀ msg, validateHABackingStoreCompatibility haEmbeddedConfig = some msg →
      checkOnlyVClusterInNamespace [] "ns1" "vc1" = none →
      (({ connect := true, print := false, upgrade := false } : CreateOptions).upgrade = true ∨
        false = false) →
      CreateHelm [] "ns1" "vc1" { connect := true, print := false, upgrade := false } false
        haEmbeddedConfig = CreateHelmAction.fail msg) ∧
    (haEmbeddedConfig.embeddedDatabase = true → haEmbeddedConfig.haReplicas > 1 →
      ∀ b, CreateHelm [] "ns1" "vc1" { connect := true, print := false, upgrade := false }
        false haEmbeddedConfig ≠ CreateHelmAction.deploy b) :=
  validateHABackingStore_blocks_embedded_ha [] "ns1" "vc1"
    { connect := true, print := false, upgrade := false } false haEmbeddedConfig

/-- Counterexample to claim C7 as stated: CreateHelm with a headless config
still reaches ConnectHelm on two paths — with `--print` it deploys and then
calls ConnectHelm at line 385 to print the kubeconfig, and when the vCluster
is already deployed and `--upgrade` is not given, the early return at line
189 calls ConnectHelm on the raw connect flag before the headless flag is
even read at line 342. -/
theorem createHelm_headless_print_still_connects :
    CreateHelm [] "ns1" "vc1" { connect := false, print := true, upgrade := false } false
      headlessConfig = CreateHelmAction.deploy true ∧
    CreateHelm [] "ns1" "vc1" { connect := true, print := false, upgrade := false } true
      headlessConfig = CreateHelmAction.connectExisting := by
  constructor <;> rfl

/-- Claim C7, amended: when `experimental.isolatedControlPlane.headless` is
enabled, the deploy path forces the connect flag off, so after deploying
ConnectHelm is reached only when printing the kubeconfig was explicitly
requested with `--print`; CreateHelm can still connect without `--print`
only through the already-deployed early return (an existing deployed
release, no `--upgrade`, connect flag set), which returns before the
headless flag is read; and the control-plane Service is rendered without a
pod selector and without target ports. -/
theorem headless_forces_connect_off_and_selectorless_service
    (vClusters : List FoundVCluster) (cmdNamespace vClusterName : String)
    (options : CreateOptions) (alreadyDeployed : Bool) (vClusterConfig : Config)
    (h : vClusterConfig.headless = true) :
    (∀ b, CreateHelm vClusters cmdNamespace vClusterName options alreadyDeployed
      vClusterConfig = CreateHelmAction.deploy b → b = options.print) ∧
    (CreateHelm vClusters cmdNamespace vClusterName options alreadyDeployed vClusterConfig =
        CreateHelmAction.connectExisting →
      alreadyDeployed = true ∧ options.upgrade = false ∧ options.connect = true) ∧
    (renderControlPlaneService vClusterConfig).selector = none ∧
    (∀ p ∈ (renderControlPlaneService vClusterConfig).ports, p.targetPort = none) := by
  refine ⟨?_, ?_, ?_, ?_⟩
  · intro b hb
    rcases hc : checkOnlyVClusterInNamespace vClusters cmdNamespace vClusterName with _ | m
    · by_cases hcond : (!options.upgrade && alreadyDeployed) = true
      · by_cases hconn : options.connect = true
        · simp [CreateHelm, hc, hcond, hconn] at hb
        · simp [CreateHelm, hc, hcond, hconn] at hb
      · rcases hv : validateHABackingStoreCompatibility vClusterConfig with _ | m2
        · simp [CreateHelm, hc, hcond, hv, h] at hb
          exact hb.symm
        · simp [CreateHelm, hc, hcond, hv] at hb
    · simp [CreateHelm, hc] at hb
  · intro hce
    rcases hc : checkOnlyVClusterInNamespace vClusters cmdNamespace vClusterName with _ | m
    · by_cases hcond : (!options.upgrade && alreadyDeployed) = true
      · by_cases hconn : options.connect = true
        · have hand := hcond
          rw [Bool.and_eq_true, Bool.not_eq_true'] at hand
          exact ⟨hand.2, hand.1, hconn⟩
        · simp [CreateHelm, hc, hcond, hconn] at hce
      · rcases hv : validateHABackingStoreCompatibility vClusterConfig with _ | m2
        · simp [CreateHelm, hc, hcond, hv] at hce
        · simp [CreateHelm, hc, hcond, hv] at hce
    · simp [CreateHelm, hc] at hce
  · simp [renderControlPlaneService, h]
  · intro p hp
    simp [renderControlPlaneService, h] at hp
    rcases hp with rfl | rfl <;> rfl

/-- Witness for the amended C7 at a concrete headless configuration. -/
theorem headless_forces_connect_off_witness :
    headlessConfig.headless = true ∧
    ((∀ b, CreateHelm [] "ns1" "vc1" { connect := true, print := false, upgrade := false }
      false headlessConfig = CreateHelmAction.deploy b → b = false) ∧
    (CreateHelm [] "ns1" "vc1" { connect := true, print := false, upgrade := false } false
        headlessConfig = CreateHelmAction.connectExisting →
      false = true ∧ false = false ∧ true = true) ∧
    (renderControlPlaneService headlessConfig).selector = none ∧
    (∀ p ∈ (renderControlPlaneService headlessConfig).ports, p.targetPort = none)) :=
  ⟨rfl, headless_forces_connect_off_and_selectorless_service [] "ns1" "vc1"
    { connect := true, print := false, upgrade := false } false headlessConfig rfl⟩

/-- Claim C2: with toHost PersistentVolume sync enabled the mapper returns
the host-cluster PV annotation whenever it is present and non-empty, and the
deterministic cluster-scoped translation of the virtual name otherwise; with
the sync disabled the mapper is a mirror mapper (host name = virtual
name). -/
theorem persistentVolumesMapper_spec (vClusterName : String) (cfg : Config)
    (name : String) (vPv : PersistentVolume) :
    (cfg.syncToHostPersistentVolumesEnabled = false →
      ∀ vObj, createPersistentVolumesMapperHostName vClusterName cfg name vObj = name) ∧
    (cfg.syncToHostPersistentVolumesEnabled = true →
      (∀ value, value ≠ "" → pvAnnLookup vPv hostClusterPVAnnKey = some value →
        createPersistentVolumesMapperHostName vClusterName cfg name (some vPv) = value) ∧
      ((pvAnnLookup vPv hostClusterPVAnnKey = none ∨
          pvAnnLookup vPv hostClusterPVAnnKey = some "") →
        createPersistentVolumesMapperHostName vClusterName cfg name (some vPv) =
          HostNameCluster vClusterName name)) := by
  constructor
  · intro hdis vObj
    simp [createPersistentVolumesMapperHostName, hdis]
  · intro hen
    constructor
    · intro value hne hl
      simp [createPersistentVolumesMapperHostName, hen, hl, hne]
    · rintro (hl | hl) <;> simp [createPersistentVolumesMapperHostName, hen, hl]

/-- Witness for C2 at a concrete PV carrying the host-PV annotation. -/
theorem persistentVolumesMapper_spec_witness :
    (sampleConfig.syncToHostPersistentVolumesEnabled = true) ∧
    ("pv-host" ≠ "") ∧
    (pvAnnLookup ⟨some [(hostClusterPVAnnKey, "pv-host")]⟩ hostClusterPVAnnKey =
      some "pv-host") ∧
    createPersistentVolumesMapperHostName "vc" sampleConfig "pv-virtual"
      (some ⟨some [(hostClusterPVAnnKey, "pv-host")]⟩) = "pv-host" :=
  ⟨rfl, by decide, by decide,
    ((persistentVolumesMapper_spec "vc" sampleConfig "pv-virtual"
      ⟨some [(hostClusterPVAnnKey, "pv-host")]⟩).2 rfl).1 "pv-host" (by decide) (by decide)⟩

/-! ## Helper lemmas about strings and the translator -/

/-- Two strings with the same character data are equal. -/
theorem string_data_ext {s t : String} (h : s.data = t.data) : s = t := by
  cases s
  cases t
  exact congrArg String.mk h

theorem data_append (s t : String) : (s ++ t).data = s.data ++ t.data := rfl

theorem string_length_data (s : String) : s.length = s.data.length := rfl

theorem hexDigitsAux_length (k : Nat) : ∀ h, (hexDigitsAux k h).length = k := by
  induction k with
  | zero => intro h; rfl
  | succ n ih => intro h; simp [hexDigitsAux, ih]

theorem digest10_length (s : String) : (digest10 s).length = 10 := by
  simp [digest10, string_length_data, hexDigitsAux_length]

theorem joinDash_five (a b c : String) :
    joinDash [a, "x", b, "x", c] = a ++ "-x-" ++ b ++ "-x-" ++ c := by
  apply string_data_ext
  simp only [joinDash, data_append, List.append_assoc]
  rfl

/-- Splitting a separated concatenation at a separator character that occurs
in neither left part recovers the parts. -/
theorem sep_split {a₁ a₂ r₁ r₂ : List Char} (h₁ : '-' ∉ a₁) (h₂ : '-' ∉ a₂)
    (heq : a₁ ++ '-' :: r₁ = a₂ ++ '-' :: r₂) : a₁ = a₂ ∧ r₁ = r₂ := by
  induction a₁ generalizing a₂ with
  | nil =>
    cases a₂ with
    | nil => simpa using heq
    | cons c t =>
      simp only [List.nil_append, List.cons_append, List.cons.injEq] at heq
      exact absurd (heq.1 ▸ List.mem_cons_self c t) h₂
  | cons c t ih =>
    cases a₂ with
    | nil =>
      simp only [List.nil_append, List.cons_append, List.cons.injEq] at heq
      exact absurd (heq.1.symm ▸ List.mem_cons_self c t) h₁
    | cons c₂ t₂ =>
      simp only [List.cons_append, List.cons.injEq] at heq
      obtain ⟨rfl, heq'⟩ := heq
      have ht := ih (fun hm => h₁ (List.mem_cons_of_mem _ hm))
        (fun hm => h₂ (List.mem_cons_of_mem _ hm)) heq'
      exact ⟨by rw [ht.1], ht.2⟩

/-- Claim C5, amended: HostName is at most 63 characters, deterministic, and
follows the pattern `<vName>-x-<vNamespace>-x-<vClusterName>`; when the
pattern fits within 63 characters and the virtual names carry no hyphen,
distinct inputs map to distinct host names (with names containing the
`-x-` separator the translation can collide, see the counterexample). -/
theorem hostName_contract (vClusterName targetNamespace vName vNamespace
    vName2 vNamespace2 : String)
    (hfit : (vName ++ "-x-" ++ vNamespace ++ "-x-" ++ vClusterName).length ≤ 63)
    (hfit2 : (vName2 ++ "-x-" ++ vNamespace2 ++ "-x-" ++ vClusterName).length ≤ 63)
    (h1 : '-' ∉ vName.data) (h2 : '-' ∉ vNamespace.data)
    (h3 : '-' ∉ vName2.data) (h4 : '-' ∉ vNamespace2.data) :
    (∀ n ns, (HostName vClusterName targetNamespace n ns).name.length ≤ 63) ∧
    (∀ n ns, HostName vClusterName targetNamespace n ns =
      HostName vClusterName targetNamespace n ns) ∧
    (HostName vClusterName targetNamespace vName vNamespace).name =
      vName ++ "-x-" ++ vNamespace ++ "-x-" ++ vClusterName ∧
    ((HostName vClusterName targetNamespace vName vNamespace).name =
        (HostName vClusterName targetNamespace vName2 vNamespace2).name →
      vName = vName2 ∧ vNamespace = vNamespace2) := by
  have hpattern : ∀ n ns, (n ++ "-x-" ++ ns ++ "-x-" ++ vClusterName).length ≤ 63 →
      (HostName vClusterName targetNamespace n ns).name =
        n ++ "-x-" ++ ns ++ "-x-" ++ vClusterName := by
    intro n ns hlen
    simp only [HostName, safeConcatName, joinDash_five]
    rw [if_pos hlen]
  refine ⟨?_, fun n ns => rfl, hpattern vName vNamespace hfit, ?_⟩
  · intro n ns
    simp only [HostName, safeConcatName, joinDash_five]
    by_cases hlen : (n ++ "-x-" ++ ns ++ "-x-" ++ vClusterName).length ≤ 63
    · rw [if_pos hlen]
      exact hlen
    · rw [if_neg hlen]
      have htake : ((n ++ "-x-" ++ ns ++ "-x-" ++ vClusterName).data.take 52).length ≤ 52 := by
        rw [List.length_take]
        exact Nat.min_le_left _ _
      have hdig : (digest10 (n ++ "-x-" ++ ns ++ "-x-" ++ vClusterName)).data.length = 10 :=
        digest10_length _
      have hdash : ("-" : String).data.length = 1 := rfl
      rw [string_length_data, data_append, data_append, List.length_append,
        List.length_append]
      have hmk : (String.mk ((n ++ "-x-" ++ ns ++ "-x-" ++ vClusterName).data.take 52)).data
          = (n ++ "-x-" ++ ns ++ "-x-" ++ vClusterName).data.take 52 := rfl
      rw [hmk]
      omega
  · intro heq
    rw [hpattern vName vNamespace hfit, hpattern vName2 vNamespace2 hfit2] at heq
    have hdata := congrArg String.data heq
    simp only [data_append, List.append_assoc, List.cons_append, List.nil_append] at hdata
    obtain ⟨hn, hrest⟩ := sep_split h1 h3 hdata
    simp only [List.cons.injEq, true_and] at hrest
    obtain ⟨hns, -⟩ := sep_split h2 h4 hrest
    exact ⟨string_data_ext hn, string_data_ext hns⟩

/-- Witness for the amended C5 at concrete hyphen-free inputs. -/
theorem hostName_contract_witness :
    ((("svc" : String) ++ "-x-" ++ "ns" ++ "-x-" ++ "vc").length ≤ 63) ∧
    ((("web" : String) ++ "-x-" ++ "apps" ++ "-x-" ++ "vc").length ≤ 63) ∧
    ('-' ∉ ("svc" : String).data) ∧ ('-' ∉ ("ns" : String).data) ∧
    ('-' ∉ ("web" : String).data) ∧ ('-' ∉ ("apps" : String).data) ∧
    ((∀ n ns, (HostName "vc" "host" n ns).name.length ≤ 63) ∧
    (∀ n ns, HostName "vc" "host" n ns = HostName "vc" "host" n ns) ∧
    (HostName "vc" "host" "svc" "ns").name = "svc" ++ "-x-" ++ "ns" ++ "-x-" ++ "vc" ∧
    ((HostName "vc" "host" "svc" "ns").name = (HostName "vc" "host" "web" "apps").name →
      ("svc" : String) = "web" ∧ ("ns" : String) = "apps")) :=
  ⟨by decide, by decide, by decide, by decide, by decide, by decide,
    hostName_contract "vc" "host" "svc" "ns" "web" "apps"
      (by decide) (by decide) (by decide) (by decide) (by decide) (by decide)⟩

/-! ## Association-list lemmas -/

theorem lk_deleteKey (m : List (String × String)) (key k : String) :
    lk (deleteKey m key) k = if k = key then none else lk m k := by
  induction m with
  | nil => simp [deleteKey, lk]
  | cons kv rest ih =>
    by_cases hkey : kv.1 = key
    · have hd : deleteKey (kv :: rest) key = deleteKey rest key := by
        simp [deleteKey, hkey]
      rw [hd, ih]
      by_cases hk : k = key
      · simp [hk]
      · have hne : kv.1 ≠ k := by
          rw [hkey]
          exact fun hc => hk hc.symm
        simp [lk, hk, hne]
    · have : deleteKey (kv :: rest) key = kv :: deleteKey rest key := by
        simp [deleteKey, hkey]
      rw [this]
      by_cases hkk : kv.1 = k
      · have hk : ¬ k = key := fun hc => hkey (hkk ▸ hc)
        simp [lk, hkk, hk]
      · simp [lk, hkk, ih]

theorem lk_of_isEmpty {m : List (String × String)} (h : m.isEmpty = true) (k : String) :
    lk m k = none := by
  cases m with
  | nil => rfl
  | cons kv rest => simp [List.isEmpty] at h

/-- Claim C6: the marker wire format is exactly the label key
`vcluster.loft.sh/managed-by` and the annotation key `vcluster.loft.sh/apply`;
`stripObject` removes precisely those two keys (these are the strings a tool
stripping syncer metadata must use) and preserves every other label and
annotation. -/
theorem stripObject_marker_wire_format (obj : KubeObject) (k k2 : String)
    (hk : k ≠ applyAnnKey) (hk2 : k2 ≠ managedByLabelKey) :
    managedByLabelKey = "vcluster.loft.sh/managed-by" ∧
    applyAnnKey = "vcluster.loft.sh/apply" ∧
    objAnnLookup (stripObject obj) applyAnnKey = none ∧
    objLabelLookup (stripObject obj) managedByLabelKey = none ∧
    objAnnLookup (stripObject obj) k = objAnnLookup obj k ∧
    objLabelLookup (stripObject obj) k2 = objLabelLookup obj k2 := by
  refine ⟨rfl, rfl, ?_, ?_, ?_, ?_⟩
  · cases ha : obj.annotations with
    | none => simp [stripObject, objAnnLookup, ha]
    | some a =>
      by_cases he : (deleteKey a applyAnnKey).isEmpty
      · simp [stripObject, objAnnLookup, ha, he]
      · have hobj : (stripObject obj).annotations = some (deleteKey a applyAnnKey) := by
          simp [stripObject, ha, he]
        simp only [objAnnLookup, hobj]
        rw [lk_deleteKey]
        simp
  · cases hl : obj.labels with
    | none => simp [stripObject, objLabelLookup, hl]
    | some l =>
      by_cases he : (deleteKey l managedByLabelKey).isEmpty
      · simp [stripObject, objLabelLookup, hl, he]
      · have hobj : (stripObject obj).labels = some (deleteKey l managedByLabelKey) := by
          simp [stripObject, hl, he]
        simp only [objLabelLookup, hobj]
        rw [lk_deleteKey]
        simp
  · cases ha : obj.annotations with
    | none => simp [stripObject, objAnnLookup, ha]
    | some a =>
      by_cases he : (deleteKey a applyAnnKey).isEmpty
      · have hnone : lk a k = none := by
          have := lk_deleteKey a applyAnnKey k
          rw [lk_of_isEmpty he k] at this
          simpa [hk] using this.symm
        simp [stripObject, objAnnLookup, ha, he, hnone]
      · have hobj : (stripObject obj).annotations = some (deleteKey a applyAnnKey) := by
          simp [stripObject, ha, he]
        simp only [objAnnLookup, hobj, ha]
        rw [lk_deleteKey]
        simp [hk]
  · cases hl : obj.labels with
    | none => simp [stripObject, objLabelLookup, hl]
    | some l =>
      by_cases he : (deleteKey l managedByLabelKey).isEmpty
      · have hnone : lk l k2 = none := by
          have := lk_deleteKey l managedByLabelKey k2
          rw [lk_of_isEmpty he k2] at this
          simpa [hk2] using this.symm
        simp [stripObject, objLabelLookup, hl, he, hnone]
      · have hobj : (stripObject obj).labels = some (deleteKey l managedByLabelKey) := by
          simp [stripObject, hl, he]
        simp only [objLabelLookup, hobj, hl]
        rw [lk_deleteKey]
        simp [hk2]

/-- Witness for C6 at a concrete object carrying both markers plus a user
label and annotation. -/
theorem stripObject_marker_wire_format_witness :
    ("team" ≠ applyAnnKey) ∧ ("app" ≠ managedByLabelKey) ∧
    (managedByLabelKey = "vcluster.loft.sh/managed-by" ∧
    applyAnnKey = "vcluster.loft.sh/apply" ∧
    objAnnLookup (stripObject
      { resourceVersion := "7", ownerReferences := ["o"], generation := 3,
        uid := "u", selfLink := "s", managedFields := some ["m"],
        annotations := some [(applyAnnKey, "digest"), ("team", "infra")],
        labels := some [(managedByLabelKey, "vc"), ("app", "web")],
        apiVersion := "v1", kind := "Service" }) applyAnnKey = none ∧
    objLabelLookup (stripObject
      { resourceVersion := "7", ownerReferences := ["o"], generation := 3,
        uid := "u", selfLink := "s", managedFields := some ["m"],
        annotations := some [(applyAnnKey, "digest"), ("team", "infra")],
        labels := some [(managedByLabelKey, "vc"), ("app", "web")],
        apiVersion := "v1", kind := "Service" }) managedByLabelKey = none ∧
    objAnnLookup (stripObject
      { resourceVersion := "7", ownerReferences := ["o"], generation := 3,
        uid := "u", selfLink := "s", managedFields := some ["m"],
        annotations := some [(applyAnnKey, "digest"), ("team", "infra")],
        labels := some [(managedByLabelKey, "vc"), ("app", "web")],
        apiVersion := "v1", kind := "Service" }) "team" =
      objAnnLookup
      { resourceVersion := "7", ownerReferences := ["o"], generation := 3,
        uid := "u", selfLink := "s", managedFields := some ["m"],
        annotations := some [(applyAnnKey, "digest"), ("team", "infra")],
        labels := some [(managedByLabelKey, "vc"), ("app", "web")],
        apiVersion := "v1", kind := "Service" } "team" ∧
    objLabelLookup (stripObject
      { resourceVersion := "7", ownerReferences := ["o"], generation := 3,
        uid := "u", selfLink := "s", managedFields := some ["m"],
        annotations := some [(applyAnnKey, "digest"), ("team", "infra")],
        labels := some [(managedByLabelKey, "vc"), ("app", "web")],
        apiVersion := "v1", kind := "Service" }) "app" =
      objLabelLookup
      { resourceVersion := "7", ownerReferences := ["o"], generation := 3,
        uid := "u", selfLink := "s", managedFields := some ["m"],
        annotations := some [(applyAnnKey, "digest"), ("team", "infra")],
        labels := some [(managedByLabelKey, "vc"), ("app", "web")],
        apiVersion := "v1", kind := "Service" } "app") :=
  ⟨by decide, by decide,
    stripObject_marker_wire_format _ "team" "app" (by decide) (by decide)⟩

theorem lk_mem_keys {m : List (String × String)} {k : String} {v : String}
    (h : lk m k = some v) : k ∈ m.map Prod.fst := by
  induction m with
  | nil => simp [lk] at h
  | cons kv rest ih =>
    by_cases hk : kv.1 = k
    · simp [hk]
    · rw [show lk (kv :: rest) k = lk rest k from by simp [lk, hk]] at h
      simp only [List.map_cons, List.mem_cons]
      exact Or.inr (ih h)

theorem lk_not_mem_keys {m : List (String × String)} {k : String}
    (h : k ∉ m.map Prod.fst) : lk m k = none := by
  induction m with
  | nil => rfl
  | cons kv rest ih =>
    simp only [List.map_cons, List.mem_cons] at h
    push_neg at h
    have hne : kv.1 ≠ k := fun hc => h.1 hc.symm
    simp [lk, hne, ih h.2]

theorem lk_filterMap_keys {ks : List String} (hnd : ks.Nodup) (g : String → Option String)
    (key : String) :
    lk (ks.filterMap (fun k => Option.map (fun val => (k, val)) (g k))) key =
      if key ∈ ks then g key else none := by
  induction ks with
  | nil => simp [lk]
  | cons k0 rest ih =>
    obtain ⟨hk0, hrest⟩ := List.nodup_cons.mp hnd
    cases hg : g k0 with
    | none =>
      rw [List.filterMap_cons]
      simp only [hg, Option.map_none']
      rw [ih hrest]
      by_cases hk : key = k0
      · subst hk
        simp [hk0, hg]
      · simp [hk]
    | some v0 =>
      rw [List.filterMap_cons]
      simp only [hg, Option.map_some']
      by_cases hk : k0 = key
      · subst hk
        simp [lk, hg]
      · have hk' : ¬ key = k0 := fun hc => hk hc.symm
        simp [lk, hk, ih hrest, hk']

theorem bidirKeys_nodup (st : BidirLabelState) : (bidirKeys st).Nodup :=
  List.Nodup.filter _ (List.nodup_dedup _)

theorem mem_bidirKeys {st : BidirLabelState} {k : String} :
    k ∈ bidirKeys st ↔
      (isSystemMarkerKey k = false ∧
        (k ∈ labelKeys st.lastApplied ∨ k ∈ labelKeys st.vLabels ∨
          k ∈ labelKeys st.pLabels)) := by
  simp only [bidirKeys, List.mem_filter, List.mem_dedup, List.mem_append,
    Bool.not_eq_true', or_assoc]
  exact and_comm

theorem lk_append (a b : List (String × String)) (k : String) :
    lk (a ++ b) k = ((lk a k).rec (lk b k) (fun v => some v) : Option String) := by
  induction a with
  | nil => rfl
  | cons kv rest ih => by_cases hk : kv.1 = k <;> simp [lk, hk, ih]

theorem lk_marker_only_none {p : List (String × String)} {k : String}
    (hk : isSystemMarkerKey k = false) :
    lk (p.filter (fun kv => isSystemMarkerKey kv.1)) k = none := by
  induction p with
  | nil => rfl
  | cons kv rest ih =>
    by_cases hm : isSystemMarkerKey kv.1
    · have hne : kv.1 ≠ k := fun hc => by
        rw [hc, hk] at hm
        exact Bool.false_ne_true hm
      rw [List.filter_cons_of_pos (by simpa using hm)]
      simp [lk, hne, ih]
    · rw [List.filter_cons_of_neg (by simpa using hm)]
      exact ih

/-- The merged map a reconcile produces, looked up pointwise. -/
theorem lk_reconcile_vLabels (st : BidirLabelState) (k : String)
    (hk : isSystemMarkerKey k = false) :
    lk (reconcileBidirLabels st).vLabels k =
      mergeLabel (lk st.lastApplied k) (lk st.vLabels k) (lk st.pLabels k) := by
  show lk ((bidirKeys st).filterMap _) k = _
  rw [lk_filterMap_keys (bidirKeys_nodup st)]
  by_cases hmem : k ∈ bidirKeys st
  · rw [if_pos hmem]
  · rw [if_neg hmem]
    have h1 : lk st.lastApplied k = none :=
      lk_not_mem_keys (fun hm => hmem (mem_bidirKeys.mpr ⟨hk, Or.inl hm⟩))
    have h2 : lk st.vLabels k = none :=
      lk_not_mem_keys (fun hm => hmem (mem_bidirKeys.mpr ⟨hk, Or.inr (Or.inl hm)⟩))
    have h3 : lk st.pLabels k = none :=
      lk_not_mem_keys (fun hm => hmem (mem_bidirKeys.mpr ⟨hk, Or.inr (Or.inr hm)⟩))
    rw [h1, h2, h3]
    simp [mergeLabel]

theorem lk_reconcile_pLabels (st : BidirLabelState) (k : String)
    (hk : isSystemMarkerKey k = false) :
    lk (reconcileBidirLabels st).pLabels k = lk (reconcileBidirLabels st).vLabels k := by
  show lk (((bidirKeys st).filterMap _) ++ _) k = _
  rw [lk_append]
  cases hm : lk ((bidirKeys st).filterMap (fun k =>
      Option.map (fun val => (k, val))
        (mergeLabel (lk st.lastApplied k) (lk st.vLabels k) (lk st.pLabels k)))) k with
  | none =>
    show lk (st.pLabels.filter _) k = _
    rw [lk_marker_only_none hk]
    exact hm.symm
  | some v => exact hm.symm

/-- Claim C3: for every supported non-marker key L, one reconcile of the
bidirectional label/annotation sync makes a host-side set visible on the
virtual side, a virtual-side set visible on the host side, propagates a
deletion from either side to the other, and leaves the two sides equal
at L. -/
theorem bidirLabelSync_roundtrip (st : BidirLabelState) (L x : String)
    (hL : isSystemMarkerKey L = false) :
    (lk (reconcileBidirLabels st).vLabels L = lk (reconcileBidirLabels st).pLabels L) ∧
    (lk st.lastApplied L = none → lk st.vLabels L = none → lk st.pLabels L = some x →
      lk (reconcileBidirLabels st).vLabels L = some x ∧
      lk (reconcileBidirLabels st).pLabels L = some x) ∧
    (lk st.lastApplied L = none → lk st.vLabels L = some x →
      lk (reconcileBidirLabels st).vLabels L = some x ∧
      lk (reconcileBidirLabels st).pLabels L = some x) ∧
    (lk st.lastApplied L = some x → lk st.vLabels L = some x → lk st.pLabels L = none →
      lk (reconcileBidirLabels st).vLabels L = none ∧
      lk (reconcileBidirLabels st).pLabels L = none) ∧
    (lk st.lastApplied L = some x → lk st.vLabels L = none →
      lk (reconcileBidirLabels st).vLabels L = none ∧
      lk (reconcileBidirLabels st).pLabels L = none) := by
  have hv := lk_reconcile_vLabels st L hL
  have hp := lk_reconcile_pLabels st L hL
  refine ⟨hp.symm, ?_, ?_, ?_, ?_⟩
  · intro h1 h2 h3
    rw [h1, h2, h3] at hv
    simp only [mergeLabel, if_neg (by simp : ¬ (none : Option String) ≠ none)] at hv
    exact ⟨hv, hp.trans hv⟩
  · intro h1 h2
    rw [h1, h2] at hv
    simp only [mergeLabel, if_pos (by simp : (some x : Option String) ≠ none)] at hv
    exact ⟨hv, hp.trans hv⟩
  · intro h1 h2 h3
    rw [h1, h2, h3] at hv
    simp only [mergeLabel, if_neg (by simp : ¬ (some x : Option String) ≠ some x)] at hv
    exact ⟨hv, hp.trans hv⟩
  · intro h1 h2
    rw [h1, h2] at hv
    simp only [mergeLabel,
      if_pos (by simp : (none : Option String) ≠ some x)] at hv
    exact ⟨hv, hp.trans hv⟩

/-- Witness for C3: a host-side set of `host-cluster-label` propagates to the
virtual side in one reconcile of the concrete state. -/
theorem bidirLabelSync_roundtrip_witness :
    isSystemMarkerKey "host-cluster-label" = false ∧
    ((lk (reconcileBidirLabels
        ⟨[("app", "web")], [("app", "web"), ("host-cluster-label", "some_host_label_value")],
          [("app", "web")]⟩).vLabels "host-cluster-label" =
      lk (reconcileBidirLabels
        ⟨[("app", "web")], [("app", "web"), ("host-cluster-label", "some_host_label_value")],
          [("app", "web")]⟩).pLabels "host-cluster-label") ∧
    (lk ([("app", "web")] : List (String × String)) "host-cluster-label" = none →
      lk ([("app", "web")] : List (String × String)) "host-cluster-label" = none →
      lk [("app", "web"), ("host-cluster-label", "some_host_label_value")]
        "host-cluster-label" = some "some_host_label_value" →
      lk (reconcileBidirLabels
        ⟨[("app", "web")], [("app", "web"), ("host-cluster-label", "some_host_label_value")],
          [("app", "web")]⟩).vLabels "host-cluster-label" = some "some_host_label_value" ∧
      lk (reconcileBidirLabels
        ⟨[("app", "web")], [("app", "web"), ("host-cluster-label", "some_host_label_value")],
          [("app", "web")]⟩).pLabels "host-cluster-label" = some "some_host_label_value") ∧
    (lk ([("app", "web")] : List (String × String)) "host-cluster-label" = none →
      lk ([("app", "web")] : List (String × String)) "host-cluster-label" =
        some "some_host_label_value" →
      lk (reconcileBidirLabels
        ⟨[("app", "web")], [("app", "web"), ("host-cluster-label", "some_host_label_value")],
          [("app", "web")]⟩).vLabels "host-cluster-label" = some "some_host_label_value" ∧
      lk (reconcileBidirLabels
        ⟨[("app", "web")], [("app", "web"), ("host-cluster-label", "some_host_label_value")],
          [("app", "web")]⟩).pLabels "host-cluster-label" = some "some_host_label_value") ∧
    (lk ([("app", "web")] : List (String × String)) "host-cluster-label" =
        some "some_host_label_value" →
      lk ([("app", "web")] : List (String × String)) "host-cluster-label" =
        some "some_host_label_value" →
      lk [("app", "web"), ("host-cluster-label", "some_host_label_value")]
        "host-cluster-label" = none →
      lk (reconcileBidirLabels
        ⟨[("app", "web")], [("app", "web"), ("host-cluster-label", "some_host_label_value")],
          [("app", "web")]⟩).vLabels "host-cluster-label" = none ∧
      lk (reconcileBidirLabels
        ⟨[("app", "web")], [("app", "web"), ("host-cluster-label", "some_host_label_value")],
          [("app", "web")]⟩).pLabels "host-cluster-label" = none) ∧
    (lk ([("app", "web")] : List (String × String)) "host-cluster-label" =
        some "some_host_label_value" →
      lk ([("app", "web")] : List (String × String)) "host-cluster-label" = none →
      lk (reconcileBidirLabels
        ⟨[("app", "web")], [("app", "web"), ("host-cluster-label", "some_host_label_value")],
          [("app", "web")]⟩).vLabels "host-cluster-label" = none ∧
      lk (reconcileBidirLabels
        ⟨[("app", "web")], [("app", "web"), ("host-cluster-label", "some_host_label_value")],
          [("app", "web")]⟩).pLabels "host-cluster-label" = none)) :=
  ⟨by decide,
    bidirLabelSync_roundtrip
      ⟨[("app", "web")], [("app", "web"), ("host-cluster-label", "some_host_label_value")],
        [("app", "web")]⟩ "host-cluster-label" "some_host_label_value" (by decide)⟩

theorem lk_putKey_self {κ α : Type} [DecidableEq κ] (m : List (κ × α)) (key : κ) (v : α) :
    lk (putKey m key v) key = some v := by
  simp [putKey, lk]

/-- Writing the host-assigned node ports back onto the virtual ports yields
exactly the host ports. -/
theorem writeback_ports (l : List ServicePort) (nps : List Int) :
    List.zipWith (fun p np => { p with nodePort := np.nodePort }) l
      (List.zipWith (fun p np => { p with nodePort := np }) l nps) =
    List.zipWith (fun p np => { p with nodePort := np }) l nps := by
  induction l generalizing nps with
  | nil => rfl
  | cons p t ih =>
    cases nps with
    | nil => rfl
    | cons np tnp => simp [List.zipWith, ih]

/-- Claim C4: after one reconcile of a freshly created virtual Service, the
projected host Service exists under the translated host name in the host
namespace, and the virtual Service's clusterIP, healthCheckNodePort and the
nodePort of every port equal the corresponding fields of the host Service
(the host-assigned values are written back within the same reconcile). -/
theorem serviceSync_create_writeback (vClusterName targetNamespace : String)
    (assign : HostAssignment) (st : ServiceClusterState) (key : String × String)
    (vSpec : ServiceSpec)
    (hv : lk st.vServices key = some vSpec)
    (hp : lk st.pServices
      ((HostName vClusterName targetNamespace key.2 key.1).nspace,
       (HostName vClusterName targetNamespace key.2 key.1).name) = none)
    (hlen : assign.nodePorts.length = vSpec.ports.length) :
    ∃ pSpec v2,
      lk (reconcileServiceCreate vClusterName targetNamespace assign st key).pServices
        ((HostName vClusterName targetNamespace key.2 key.1).nspace,
         (HostName vClusterName targetNamespace key.2 key.1).name) = some pSpec ∧
      lk (reconcileServiceCreate vClusterName targetNamespace assign st key).vServices
        key = some v2 ∧
      v2.clusterIP = pSpec.clusterIP ∧
      v2.healthCheckNodePort = pSpec.healthCheckNodePort ∧
      v2.ports = pSpec.ports ∧
      v2.ports.length = vSpec.ports.length := by
  refine ⟨applyHostAssignment assign vSpec,
    { vSpec with
      clusterIP := (applyHostAssignment assign vSpec).clusterIP
      healthCheckNodePort := (applyHostAssignment assign vSpec).healthCheckNodePort
      ports := List.zipWith (fun p np => { p with nodePort := np.nodePort })
        vSpec.ports (applyHostAssignment assign vSpec).ports }, ?_, ?_, rfl, rfl, ?_, ?_⟩
  · show lk (reconcileServiceCreate vClusterName targetNamespace assign st key).pServices _ = _
    unfold reconcileServiceCreate
    rw [hv]
    simp only
    rw [hp]
    exact lk_putKey_self _ _ _
  · unfold reconcileServiceCreate
    rw [hv]
    simp only
    rw [hp]
    exact lk_putKey_self _ _ _
  · show List.zipWith _ vSpec.ports (applyHostAssignment assign vSpec).ports =
      (applyHostAssignment assign vSpec).ports
    unfold applyHostAssignment
    exact writeback_ports vSpec.ports assign.nodePorts
  · show (List.zipWith _ vSpec.ports (applyHostAssignment assign vSpec).ports).length = _
    rw [List.length_zipWith]
    unfold applyHostAssignment
    simp only [List.length_zipWith]
    omega

/-- Witness for C4: a concrete LoadBalancer Service picks up the
host-assigned cluster IP and node port within one reconcile. -/
theorem serviceSync_create_writeback_witness :
    (lk ([((("ns1", "myservice-loadbalancer") : String × String),
        (⟨"", 0, [⟨80, 0⟩]⟩ : ServiceSpec))])
      (("ns1", "myservice-loadbalancer") : String × String) = some ⟨"", 0, [⟨80, 0⟩]⟩) ∧
    (lk ([] : List ((String × String) × ServiceSpec))
      ((HostName "vc" "host" ("ns1", "myservice-loadbalancer").2
          ("ns1", "myservice-loadbalancer").1).nspace,
       (HostName "vc" "host" ("ns1", "myservice-loadbalancer").2
          ("ns1", "myservice-loadbalancer").1).name) = none) ∧
    (([30080] : List Int).length = ([⟨80, 0⟩] : List ServicePort).length) ∧
    ∃ pSpec v2,
      lk (reconcileServiceCreate "vc" "host" ⟨"10.0.0.7", 31000, [30080]⟩
          ⟨[((("ns1", "myservice-loadbalancer") : String × String), ⟨"", 0, [⟨80, 0⟩]⟩)], []⟩
          ("ns1", "myservice-loadbalancer")).pServices
        ((HostName "vc" "host" ("ns1", "myservice-loadbalancer").2
            ("ns1", "myservice-loadbalancer").1).nspace,
         (HostName "vc" "host" ("ns1", "myservice-loadbalancer").2
            ("ns1", "myservice-loadbalancer").1).name) = some pSpec ∧
      lk (reconcileServiceCreate "vc" "host" ⟨"10.0.0.7", 31000, [30080]⟩
          ⟨[((("ns1", "myservice-loadbalancer") : String × String), ⟨"", 0, [⟨80, 0⟩]⟩)], []⟩
          ("ns1", "myservice-loadbalancer")).vServices
        ("ns1", "myservice-loadbalancer") = some v2 ∧
      v2.clusterIP = pSpec.clusterIP ∧
      v2.healthCheckNodePort = pSpec.healthCheckNodePort ∧
      v2.ports = pSpec.ports ∧
      v2.ports.length = ([⟨80, 0⟩] : List ServicePort).length :=
  ⟨by decide, by decide, by decide,
    serviceSync_create_writeback "vc" "host" ⟨"10.0.0.7", 31000, [30080]⟩
      ⟨[((("ns1", "myservice-loadbalancer") : String × String), ⟨"", 0, [⟨80, 0⟩]⟩)], []⟩
      ("ns1", "myservice-loadbalancer") ⟨"", 0, [⟨80, 0⟩]⟩
      (by decide) (by decide) (by decide)⟩

/-! ## Lemmas about Go ReplaceAll and substring occurrence -/

theorem listReplaceAll_nil (pat rep : List Char) : listReplaceAll pat rep [] = [] := by
  simp [listReplaceAll]

theorem listReplaceAll_cons_neg {pat : List Char} (rep : List Char) {c : Char}
    {rest : List Char} (h : ¬ (pat ≠ [] ∧ pat.isPrefixOf (c :: rest))) :
    listReplaceAll pat rep (c :: rest) = c :: listReplaceAll pat rep rest := by
  rw [listReplaceAll]
  rw [dif_neg h]

theorem listReplaceAll_pos {pat rep l : List Char} (h1 : pat ≠ []) (h2 : pat.isPrefixOf l) :
    listReplaceAll pat rep l = rep ++ listReplaceAll pat rep (l.drop pat.length) := by
  cases l with
  | nil =>
    cases pat with
    | nil => exact absurd rfl h1
    | cons pc pt => simp [List.isPrefixOf] at h2
  | cons c rest =>
    rw [listReplaceAll]
    rw [dif_pos ⟨h1, h2⟩]

/-- ReplaceAll leaves a string without any occurrence of the pattern
unchanged. -/
theorem listReplaceAll_id {pat rep : List Char} (hp : pat ≠ []) :
    ∀ {l : List Char}, ¬ pat <:+: l → listReplaceAll pat rep l = l := by
  intro l
  induction l with
  | nil => intro _; exact listReplaceAll_nil pat rep
  | cons c rest ih =>
    intro h
    have hnp : ¬ (pat ≠ [] ∧ pat.isPrefixOf (c :: rest)) := by
      rintro ⟨-, hpre⟩
      exact h (List.IsPrefix.isInfix (List.isPrefixOf_iff_prefix.mp hpre))
    rw [listReplaceAll_cons_neg rep hnp]
    rw [ih (fun hi => h (List.infix_cons hi))]

/-- ReplaceAll across a split `a ++ pat ++ b` where no occurrence of the
pattern starts inside `a`: the occurrence at the boundary is replaced and
the traversal continues in `b`. -/
theorem listReplaceAll_boundary {pat rep : List Char} (hpat : pat ≠ []) :
    ∀ {a : List Char} (b : List Char), ¬ pat <:+: a →
      (∀ ch, a.getLast? = some ch → ch ∉ pat) →
      listReplaceAll pat rep (a ++ (pat ++ b)) =
        a ++ (rep ++ listReplaceAll pat rep b) := by
  intro a
  induction a with
  | nil =>
    intro b _ _
    simp only [List.nil_append]
    rw [listReplaceAll_pos hpat
      (List.isPrefixOf_iff_prefix.mpr (List.prefix_append pat b))]
    rw [List.drop_left]
  | cons c a' ih =>
    intro b ha hlast
    have hnp : ¬ (pat ≠ [] ∧ pat.isPrefixOf (c :: (a' ++ (pat ++ b)))) := by
      rintro ⟨-, hpre⟩
      have hpre' : pat <+: (c :: a') ++ (pat ++ b) :=
        List.isPrefixOf_iff_prefix.mp hpre
      by_cases hle : pat.length ≤ (c :: a').length
      · have hins : pat <+: c :: a' :=
          List.prefix_of_prefix_length_le hpre' (List.prefix_append _ _) hle
        exact ha hins.isInfix
      · have hsub : (c :: a') <+: pat :=
          List.prefix_of_prefix_length_le (List.prefix_append _ _) hpre'
            (Nat.le_of_not_le hle)
        obtain ⟨ch, hch⟩ : ∃ ch, (c :: a').getLast? = some ch := by
          cases hgl : (c :: a').getLast? with
          | none => exact absurd (List.getLast?_eq_none_iff.mp hgl) (List.cons_ne_nil c a')
          | some ch => exact ⟨ch, rfl⟩
        obtain ⟨ys, hys⟩ := List.getLast?_eq_some_iff.mp hch
        have hmem : ch ∈ c :: a' := by
          rw [hys]
          exact List.mem_append_right ys (List.mem_singleton_self ch)
        exact hlast ch hch (hsub.subset hmem)
    rw [List.cons_append, listReplaceAll_cons_neg rep hnp]
    have hlast' : ∀ ch, a'.getLast? = some ch → ch ∉ pat := by
      intro ch hch
      apply hlast ch
      cases a' with
      | nil => simp at hch
      | cons d t => rw [List.getLast?_cons_cons]; exact hch
    rw [ih b (fun hi => ha (List.infix_cons hi)) hlast']
    rfl

/-- An infix of a cons is a prefix of it or an infix of the tail. -/
theorem prefix_append_cases {α : Type} {p a b : List α} (h : p <+: a ++ b) :
    p <+: a ∨ ∃ t, p = a ++ t ∧ t <+: b := by
  by_cases hle : p.length ≤ a.length
  · exact Or.inl (List.prefix_of_prefix_length_le h (List.prefix_append a b) hle)
  · right
    have ha : a <+: p :=
      List.prefix_of_prefix_length_le (List.prefix_append a b) h (Nat.le_of_not_le hle)
    obtain ⟨t, rfl⟩ := ha
    obtain ⟨r, hr⟩ := h
    rw [List.append_assoc] at hr
    exact ⟨t, rfl, ⟨r, List.append_cancel_left hr⟩⟩

/-- Any occurrence of `p` inside `a ++ b` lies inside `a`, inside `b`, or
straddles the boundary with a nonempty suffix of `a` and a nonempty prefix
of `b`. -/
theorem infix_append_cases {α : Type} {p a b : List α} (h : p <:+: a ++ b) :
    p <:+: a ∨ p <:+: b ∨
      ∃ s t, p = s ++ t ∧ s ≠ [] ∧ t ≠ [] ∧ s <:+ a ∧ t <+: b := by
  induction a with
  | nil => exact Or.inr (Or.inl (by simpa using h))
  | cons c a' ih =>
    rw [List.cons_append] at h
    rcases List.infix_cons_iff.mp h with hpre | hinf
    · rw [← List.cons_append] at hpre
      rcases prefix_append_cases hpre with h1 | ⟨t, rfl, ht⟩
      · exact Or.inl h1.isInfix
      · cases t with
        | nil =>
          rw [List.append_nil]
          exact Or.inl (List.infix_refl _)
        | cons x t' =>
          exact Or.inr (Or.inr ⟨c :: a', x :: t', rfl, List.cons_ne_nil c a',
            List.cons_ne_nil x t', List.suffix_refl _, ht⟩)
    · rcases ih hinf with h1 | h2 | ⟨s, t, hst, hs, ht, hsuf, hpre⟩
      · exact Or.inl (List.infix_cons h1)
      · exact Or.inr (Or.inl h2)
      · exact Or.inr (Or.inr ⟨s, t, hst, hs, ht,
          hsuf.trans (List.suffix_cons c a'), hpre⟩)

/-- No occurrence in an append whose right side starts with a character that
does not appear in the pattern. -/
theorem not_infix_append_head {p a b : List Char}
    (ha : ¬ p <:+: a) (hb : ¬ p <:+: b)
    (hhead : ∀ ch, b.head? = some ch → ch ∉ p) : ¬ p <:+: a ++ b := by
  intro h
  rcases infix_append_cases h with h1 | h2 | ⟨s, t, hst, -, ht, -, hpre⟩
  · exact ha h1
  · exact hb h2
  · cases t with
    | nil => exact ht rfl
    | cons x t' =>
      have hbh : b.head? = some x := by
        obtain ⟨r, hr⟩ := hpre
        rw [← hr]
        rfl
      have hxp : x ∈ p := by
        rw [hst]
        exact List.mem_append_right s (List.mem_cons_self x t')
      exact hhead x hbh hxp

/-- No occurrence in an append whose left side ends with a character that
does not appear in the pattern. -/
theorem not_infix_append_last {p a b : List Char}
    (ha : ¬ p <:+: a) (hb : ¬ p <:+: b)
    (hlast : ∀ ch, a.getLast? = some ch → ch ∉ p) : ¬ p <:+: a ++ b := by
  intro h
  rcases infix_append_cases h with h1 | h2 | ⟨s, t, hst, hs, -, hsuf, -⟩
  · exact ha h1
  · exact hb h2
  · obtain ⟨ch, hch⟩ : ∃ ch, s.getLast? = some ch := by
      cases hgl : s.getLast? with
      | none => exact absurd (List.getLast?_eq_none_iff.mp hgl) hs
      | some ch => exact ⟨ch, rfl⟩
    have hal : a.getLast? = some ch := by
      obtain ⟨u, hu⟩ := hsuf
      rw [← hu, List.getLast?_append, hch]
      rfl
    have hchp : ch ∈ p := by
      rw [hst]
      apply List.mem_append_left
      obtain ⟨ys, hys⟩ := List.getLast?_eq_some_iff.mp hch
      rw [hys]
      exact List.mem_append_right ys (List.mem_singleton_self ch)
    exact hlast ch hal hchp

/-! ## The rendered k0s template has exactly one placeholder occurrence -/

theorem k0s_ct_et_not_placeholder (values : Config) :
    ¬ cidrPlaceholder.data <:+:
      ((if !values.virtualSchedulerEnabled then k0sControllersDefault
        else k0sControllersVirtualScheduler) ++
       (if values.embeddedEtcdEnabled then k0sStorageEtcd else "")).data := by
  rcases Bool.eq_false_or_eq_true values.virtualSchedulerEnabled with hv | hv <;>
    rcases Bool.eq_false_or_eq_true values.embeddedEtcdEnabled with he | he <;>
      rw [hv, he] <;> decide

theorem k0s_ct_et_head (values : Config) :
    ((if !values.virtualSchedulerEnabled then k0sControllersDefault
      else k0sControllersVirtualScheduler) ++
     (if values.embeddedEtcdEnabled then k0sStorageEtcd else "")).data.head? =
      some '\n' := by
  rcases Bool.eq_false_or_eq_true values.virtualSchedulerEnabled with hv | hv <;>
    rcases Bool.eq_false_or_eq_true values.embeddedEtcdEnabled with he | he <;>
      rw [hv, he] <;> decide

theorem k0s_cm_block_not_placeholder (values : Config) :
    ¬ cidrPlaceholder.data <:+:
      (k0sControllerManagerHead.data ++
        ((if !values.virtualSchedulerEnabled then k0sControllersDefault
          else k0sControllersVirtualScheduler) ++
         (if values.embeddedEtcdEnabled then k0sStorageEtcd else "")).data) := by
  apply not_infix_append_head (by decide) (k0s_ct_et_not_placeholder values)
  intro ch hch
  rw [k0s_ct_et_head values] at hch
  injection hch with h1
  rw [← h1]
  decide

theorem k0s_cm_block_head (X : List Char) :
    (k0sControllerManagerHead.data ++ X).head? = some '\n' := by
  rw [List.head?_append]
  rfl

theorem k0s_cd_block_not_placeholder {cd : String}
    (hcd : ¬ cidrPlaceholder.data <:+: cd.data) :
    ¬ cidrPlaceholder.data <:+: (k0sClusterDomainLine ++ cd).data := by
  rw [data_append]
  apply not_infix_append_last (by decide) hcd
  intro ch hch
  rw [show k0sClusterDomainLine.data.getLast? = some ' ' from by decide] at hch
  injection hch with h1
  rw [← h1]
  decide

theorem k0s_cd_block_head (cd : String) (X : List Char) :
    ((k0sClusterDomainLine ++ cd).data ++ X).head? = some '\n' := by
  rw [List.head?_append, data_append, List.head?_append]
  rfl

/-- The rendered template tail contains no placeholder (given the
user-supplied cluster domain contains none). -/
theorem k0sTail_not_placeholder {values : Config}
    (hcd : ¬ cidrPlaceholder.data <:+: values.clusterDomain.data) :
    ¬ cidrPlaceholder.data <:+: (k0sTail values).data := by
  have hcm := k0s_cm_block_not_placeholder values
  by_cases hne : values.clusterDomain ≠ ""
  · have hdata : (k0sTail values).data =
        k0sProviderLine.data ++
          ((k0sClusterDomainLine ++ values.clusterDomain).data ++
            (k0sControllerManagerHead.data ++
              ((if !values.virtualSchedulerEnabled then k0sControllersDefault
                else k0sControllersVirtualScheduler) ++
               (if values.embeddedEtcdEnabled then k0sStorageEtcd else "")).data)) := by
      simp [k0sTail, hne, data_append, List.append_assoc]
    rw [hdata]
    apply not_infix_append_head (by decide)
    · apply not_infix_append_head (k0s_cd_block_not_placeholder hcd) hcm
      intro ch hch
      rw [k0s_cm_block_head] at hch
      injection hch with h1
      rw [← h1]
      decide
    · intro ch hch
      rw [k0s_cd_block_head] at hch
      injection hch with h1
      rw [← h1]
      decide
  · have hdata : (k0sTail values).data =
        k0sProviderLine.data ++
          (k0sControllerManagerHead.data ++
            ((if !values.virtualSchedulerEnabled then k0sControllersDefault
              else k0sControllersVirtualScheduler) ++
             (if values.embeddedEtcdEnabled then k0sStorageEtcd else "")).data) := by
      simp [k0sTail, hne, data_append, List.append_assoc]
    rw [hdata]
    apply not_infix_append_head (by decide) hcm
    intro ch hch
    rw [k0s_cm_block_head] at hch
    injection hch with h1
    rw [← h1]
    decide

theorem k0sTail_head (values : Config) :
    (k0sTail values).data.head? = some '\n' := by
  simp only [k0sTail, data_append, List.head?_append]
  rfl

/-- Claim C1, amended: when the k0s config override is empty and
`.Values.serviceCIDR` is unset, the built-in template renders with exactly
one placeholder occurrence (right after `serviceCIDR: `) and WriteK0sConfig
writes the rendering with that placeholder replaced by the given host
service CIDR, so the written `network.serviceCIDR` equals the host service
CIDR; when `.Values.serviceCIDR` is set (to a value that does not itself
contain the placeholder, and likewise for the cluster domain), the rendered
template contains that value and no placeholder. -/
theorem writeK0sConfig_replaces_placeholder (serviceCIDR : String) (vConfig : Config)
    (hoverride : vConfig.k0sConfigOverride = "")
    (hcd : ¬ cidrPlaceholder.data <:+: vConfig.clusterDomain.data) :
    (vConfig.serviceCIDR = "" →
      renderK0sConfig vConfig =
        (k0sHead ++ k0sUnsetComment) ++ cidrPlaceholder ++ k0sTail vConfig ∧
      ¬ cidrPlaceholder.data <:+: (k0sHead ++ k0sUnsetComment).data ∧
      ¬ cidrPlaceholder.data <:+: (k0sTail vConfig).data ∧
      WriteK0sConfig serviceCIDR vConfig =
        some ((k0sHead ++ k0sUnsetComment) ++ serviceCIDR ++ k0sTail vConfig)) ∧
    (vConfig.serviceCIDR ≠ "" →
      ¬ cidrPlaceholder.data <:+: vConfig.serviceCIDR.data →
      renderK0sConfig vConfig =
        (k0sHead ++ k0sServiceCIDRLine) ++ vConfig.serviceCIDR ++ k0sTail vConfig ∧
      ¬ cidrPlaceholder.data <:+: (renderK0sConfig vConfig).data) := by
  constructor
  · intro hunset
    have hrender : (renderK0sConfig vConfig).data =
        (k0sHead ++ k0sUnsetComment).data ++
          (cidrPlaceholder.data ++ (k0sTail vConfig).data) := by
      simp [renderK0sConfig, hunset, data_append, List.append_assoc]
    refine ⟨?_, by decide, k0sTail_not_placeholder hcd, ?_⟩
    · apply string_data_ext
      rw [hrender]
      simp [data_append, List.append_assoc]
    · have hrep : listReplaceAll cidrPlaceholder.data serviceCIDR.data
          (renderK0sConfig vConfig).data =
          (k0sHead ++ k0sUnsetComment).data ++
            (serviceCIDR.data ++ (k0sTail vConfig).data) := by
        rw [hrender]
        rw [listReplaceAll_boundary (by decide) _ (by decide) ?hlast]
        · rw [listReplaceAll_id (by decide) (k0sTail_not_placeholder hcd)]
        case hlast =>
          intro ch hch
          rw [show (k0sHead ++ k0sUnsetComment).data.getLast? = some ' ' from by decide]
            at hch
          injection hch with h1
          rw [← h1]
          decide
      rw [WriteK0sConfig, if_pos hoverride]
      refine congrArg some (string_data_ext ?_)
      show listReplaceAll cidrPlaceholder.data serviceCIDR.data
        (renderK0sConfig vConfig).data = _
      rw [hrep]
      simp [data_append, List.append_assoc]
  · intro hset hval
    have hrender : (renderK0sConfig vConfig).data =
        (k0sHead ++ k0sServiceCIDRLine).data ++
          (vConfig.serviceCIDR.data ++ (k0sTail vConfig).data) := by
      simp [renderK0sConfig, hset, data_append, List.append_assoc]
    constructor
    · apply string_data_ext
      rw [hrender]
      simp [data_append, List.append_assoc]
    · rw [hrender]
      apply not_infix_append_last (by decide)
      · apply not_infix_append_head hval (k0sTail_not_placeholder hcd)
        intro ch hch
        rw [k0sTail_head vConfig] at hch
        injection hch with h1
        rw [← h1]
        decide
      · intro ch hch
        rw [show (k0sHead ++ k0sServiceCIDRLine).data.getLast? = some ' ' from by decide]
          at hch
        injection hch with h1
        rw [← h1]
        decide

/-- Counterexample to claim C1 as stated: the claim quantifies over every
config with the override empty, but with `.Values.serviceCIDR` set to the
literal placeholder string the rendered template does contain a placeholder
occurrence, contradicting "the rendered template contains that value and no
placeholder". -/
theorem renderK0sConfig_placeholder_value_leaks :
    ({ sampleConfig with serviceCIDR := "CIDR_PLACEHOLDER" } : Config).serviceCIDR ≠ "" ∧
    cidrPlaceholder.data <:+:
      (renderK0sConfig { sampleConfig with serviceCIDR := "CIDR_PLACEHOLDER" }).data := by
  refine ⟨by decide, ⟨(k0sHead ++ k0sServiceCIDRLine).data, (k0sTail
    { sampleConfig with serviceCIDR := "CIDR_PLACEHOLDER" }).data, by decide⟩⟩

/-- Witness for the amended C1 at the default configuration and a concrete
host service CIDR. -/
theorem writeK0sConfig_replaces_placeholder_witness :
    (sampleConfig.k0sConfigOverride = "") ∧
    (¬ cidrPlaceholder.data <:+: sampleConfig.clusterDomain.data) ∧
    ((sampleConfig.serviceCIDR = "" →
      renderK0sConfig sampleConfig =
        (k0sHead ++ k0sUnsetComment) ++ cidrPlaceholder ++ k0sTail sampleConfig ∧
      ¬ cidrPlaceholder.data <:+: (k0sHead ++ k0sUnsetComment).data ∧
      ¬ cidrPlaceholder.data <:+: (k0sTail sampleConfig).data ∧
      WriteK0sConfig "10.96.0.0/12" sampleConfig =
        some ((k0sHead ++ k0sUnsetComment) ++ "10.96.0.0/12" ++ k0sTail sampleConfig)) ∧
    (sampleConfig.serviceCIDR ≠ "" →
      ¬ cidrPlaceholder.data <:+: sampleConfig.serviceCIDR.data →
      renderK0sConfig sampleConfig =
        (k0sHead ++ k0sServiceCIDRLine) ++ sampleConfig.serviceCIDR ++ k0sTail sampleConfig ∧
      ¬ cidrPlaceholder.data <:+: (renderK0sConfig sampleConfig).data)) :=
  ⟨rfl, by decide, writeK0sConfig_replaces_placeholder "10.96.0.0/12" sampleConfig rfl
    (by decide)⟩

/-- Counterexample to claim C5 as stated: the translation is not injective on
all inputs — when the virtual name itself contains the `-x-` separator, two
distinct (name, namespace) pairs produce the same host name. -/
theorem hostName_collision :
    (("a-x-b", "c") ≠ (("a", "b-x-c") : String × String)) ∧
    (HostName "vc" "host" "a-x-b" "c").name = (HostName "vc" "host" "a" "b-x-c").name := by
  constructor
  · decide
  · decide

end VCluster
